import Mathlib

/-!
Shallow embedding of the roster-reconciliation engine of
`src/admin-bot/clan_sync_logic.py` (the "clan sync" logic of the
onlyfes-utils admin bot), together with theorems settling the frozen
claims about it.

Modelling conventions:
* Python dicts become association lists with dict semantics (first
  occurrence wins on lookup, insertion overwrites in place or appends,
  `pop` removes the key).  Keys are unique by construction, exactly as in
  a Python dict.
* Database tables (Supabase) become lists of row structures carried in a
  `Store`; every `insert`/`update` issued by the code is recorded in a
  write log (`DbWrite`) and simultaneously applied to the `Store`.
  Supabase calls themselves are modelled as always succeeding; the
  `try/except` wrappers in the source therefore never take their error
  branches in the model.
* Network data (the WOM roster, the name-change feed, per-player
  snapshot fetches, and the current time) are inputs to `run_sync`.
* Python's dynamic typing is modelled where it matters: `PyVal` embeds
  the runtime values compared by `==` in the promotion checks, where an
  `int` (a rank id) is compared against a `str` (a rank name), and a
  missing dict key or missing global name raises `PyErr.keyError` /
  `PyErr.nameError` (the source uses `timedelta` without importing it).
* Quote characters that appear inside report strings in the source are
  written with `\x27` escapes; emoji are elided from two headers.
-/

set_option maxRecDepth 8000

namespace OnlyFes

/-! ### Association lists with Python dict semantics -/

/-- Python dict lookup: `d.get(k)` / `d[k]`. -/
def dlookup {κ α : Type} [DecidableEq κ] (k : κ) : List (κ × α) → Option α
  | [] => none
  | (k2, v) :: rest => if k2 = k then some v else dlookup k rest

/-- Python dict insertion `d[k] = v`: overwrite in place if present, else append. -/
def dinsert {κ α : Type} [DecidableEq κ] (k : κ) (v : α) : List (κ × α) → List (κ × α)
  | [] => [(k, v)]
  | (k2, v2) :: rest => if k2 = k then (k, v) :: rest else (k2, v2) :: dinsert k v rest

/-- Python dict `d.pop(k, None)`: drop the binding for `k` if present. -/
def dpop {κ α : Type} [DecidableEq κ] (k : κ) : List (κ × α) → List (κ × α)
  | [] => []
  | (k2, v2) :: rest => if k2 = k then rest else (k2, v2) :: dpop k rest

/-- In-place mutation of the value stored at `k` (e.g. `d[k]['f'] = x`). -/
def dmodify {κ α : Type} [DecidableEq κ] (k : κ) (f : α → α) : List (κ × α) → List (κ × α)
  | [] => []
  | (k2, v2) :: rest => if k2 = k then (k2, f v2) :: rest else (k2, v2) :: dmodify k f rest

/-- Python `k in d`. -/
def dcontains {κ α : Type} [DecidableEq κ] (k : κ) (d : List (κ × α)) : Bool :=
  (dlookup k d).isSome

/-- Python set insertion (`s.add`), keeping first-insertion order. -/
def sinsert (n : Nat) (s : List Nat) : List Nat :=
  if n ∈ s then s else s ++ [n]

/-! ### 2. NORMALIZATION FUNCTION (`normalize_string`, lines 52-56)

`s.lower()` is modelled per character with `Char.toLower` (the source
only ever normalizes latin player names), and each single-character
`.replace(c, '')` is modelled as removing every occurrence of `c`. -/

def MISMATCH_THRESHOLD : Nat := 15

def normalize_string (s : String) : String :=
  if s = "" then ""
  else String.mk (((((s.data.map Char.toLower).filter (fun c => c ≠ ' ')).filter
      (fun c => c ≠ '_')).filter (fun c => c ≠ '-')).filter (fun c => c ≠ '.'))

/-- The four removal filters applied by `normalize_string` after lowering. -/
def stripChars (l : List Char) : List Char :=
  ((((l.filter (fun c => c ≠ ' ')).filter (fun c => c ≠ '_')).filter
      (fun c => c ≠ '-')).filter (fun c => c ≠ '.'))

/-! ### Data model: store rows and in-memory maps -/

/-- One value of `db_rsn_map_normalized` (built in `fetch_db_ranks_and_rsns`,
lines 120-126): keyed by `normalize_string(rsn)`. -/
structure MapEntry where
  member_id : Nat
  is_primary : Bool
  original_rsn : String
deriving Repr, DecidableEq

/-- The in-memory normalized-RSN map (a Python dict). -/
abbrev RsnMap := List (String × MapEntry)

/-- A row of the `member_rsns` table. -/
structure RsnRow where
  member_id : Nat
  rsn : String
  is_primary : Bool
deriving Repr, DecidableEq

/-- A row of the `members` table (fields used by the sync logic). -/
structure MemberRow where
  id : Nat
  current_rank_id : Option Nat
  status : String
  date_joined : String
deriving Repr, DecidableEq

/-- One row returned by the `get_active_member_snapshots` RPC
(`fetch_db_member_data`, lines 139-145).  Note the row has no `rsn` and no
`total_level` field, although lines 519/525 index those keys. -/
structure ActiveInfo where
  date_joined : String
  current_rank_id : Option Nat
  latest_db_xp : Option Int
deriving Repr, DecidableEq

/-- A row of the `rank_history` table as inserted by the sync. -/
structure RankHistRow where
  member_id : Nat
  new_rank_id : Option Nat
  previous_rank_id : Option Nat
deriving Repr, DecidableEq

/-- A row of the `wom_snapshots` table as inserted by the sync. -/
structure SnapshotRow where
  member_id : Nat
  total_xp : Int
  total_level : Int
  ehp : Int
  ehb : Int
deriving Repr, DecidableEq

/-- The fields of a fetched player `latestSnapshot` that the sync reads. -/
structure SnapData where
  experience : Int
  level : Int
  ehp : Int
  ehb : Int
deriving Repr, DecidableEq

/-- The local Supabase store (the tables touched by `run_sync`).
`group_snapshots` and `wom_snapshots` rows are modelled by content where
read back (never) and appended on insert; `next_rank_id`/`next_member_id`
model the serial primary keys handed out by the database. -/
structure Store where
  ranks : List (Nat × String)
  member_rsns : List RsnRow
  members : List MemberRow
  group_snapshots : Nat
  rank_history : List RankHistRow
  wom_snapshots : List SnapshotRow
  next_rank_id : Nat
  next_member_id : Nat
deriving Repr, DecidableEq

/-- The write log: one entry per `insert`/`update` statement executed
against the store during a run. -/
inductive DbWrite
  | insertGroupSnapshot
  | updateRsnPrimary (member_id : Nat) (rsn : String) (value : Bool)
  | updateRsnClearPrimary (member_id : Nat)
  | updateRsnDisplay (member_id : Nat) (old_rsn new_rsn : String)
  | insertRsn (member_id : Nat) (rsn : String)
  | insertRank (name : String)
  | insertMembers (count : Nat)
  | insertRsnBatch (count : Nat)
  | insertRankHistory (count : Nat)
  | updateMemberRank (member_id : Nat) (rank_id : Nat)
  | updateMemberReactivate (member_id : Nat) (rank_id : Nat)
  | updateMembersInactive (ids : List Nat)
  | insertWomSnapshots (count : Nat)
deriving Repr, DecidableEq

/-! ### Supabase update statements on `member_rsns`

`update(...).eq(...).eq(...)` applies the assignment to every row
matching all the filters. -/

def rsnsSetPrimaryByRsn (t : List RsnRow) (mid : Nat) (r : String) (b : Bool) : List RsnRow :=
  t.map (fun row => if row.member_id = mid ∧ row.rsn = r then { row with is_primary := b } else row)

def rsnsClearPrimary (t : List RsnRow) (mid : Nat) : List RsnRow :=
  t.map (fun row => if row.member_id = mid ∧ row.is_primary = true then { row with is_primary := false } else row)

def rsnsSetDisplay (t : List RsnRow) (mid : Nat) (oldR newR : String) : List RsnRow :=
  t.map (fun row => if row.member_id = mid ∧ row.rsn = oldR then { row with rsn := newR } else row)

/-! ### 4. NAME CHANGE FUNCTION (`fetch_and_process_name_changes`, lines 232-341) -/

/-- State threaded through the name-change loop: the `member_rsns` table,
the in-memory normalized map, the write log and the two report lists. -/
structure NCState where
  rsns : List RsnRow
  map : RsnMap
  writes : List DbWrite
  report_lines : List String
  report_name_changes : List String
deriving Repr, DecidableEq

/-- One iteration of the `for change in name_changes` loop (lines 248-336).
The model's store writes always succeed, so the `except` branches
(lines 285-287 and 334-336) are unreachable here. -/
def process_one_name_change (dry_run : Bool) (st : NCState) (change : String × String) : NCState :=
  let old_name := change.1
  let new_name := change.2
  let old_norm := normalize_string old_name
  let new_norm := normalize_string new_name
  match dlookup old_norm st.map with
  | none => st
  | some old_entry =>
    let member_id := old_entry.member_id
    let original_db_rsn := old_entry.original_rsn
    -- lines 259-299: check whether the new name is already linked to this member
    let fix_result : Option NCState :=
      match dlookup new_norm st.map with
      | some existing_entry =>
        if existing_entry.member_id = member_id then
          if existing_entry.is_primary = false then
            -- revert branch (lines 266-294): swap the primary flag
            let rsns2 :=
              if dry_run then st.rsns
              else rsnsSetPrimaryByRsn
                (rsnsSetPrimaryByRsn st.rsns member_id original_db_rsn false)
                member_id existing_entry.original_rsn true
            let writes2 :=
              if dry_run then st.writes
              else st.writes ++ [DbWrite.updateRsnPrimary member_id original_db_rsn false,
                                 DbWrite.updateRsnPrimary member_id existing_entry.original_rsn true]
            let map2 := dmodify old_norm (fun e => { e with is_primary := false }) st.map
            let map3 := dmodify new_norm (fun e => { e with is_primary := true }) map2
            some { rsns := rsns2, map := map3, writes := writes2,
                   report_lines := st.report_lines ++
                     [s!"Processing name revert: {old_name} -> {new_name} (Swapping primary)"],
                   report_name_changes := st.report_name_changes ++
                     [s!"{old_name} -> {new_name} (Revert)"] }
          else
            -- line 298: already primary, already processed (log only), skip
            some st
        else none
      | none => none
    match fix_result with
    | some st2 => st2
    | none =>
      -- lines 302-332
      let report_lines2 := st.report_lines ++
        [s!"Processing name change: {old_name} -> {new_name}"]
      let report_ncs2 := st.report_name_changes ++ [s!"{old_name} -> {new_name}"]
      if old_norm = new_norm then
        -- lines 306-312: in-place display rename
        let rsns2 :=
          if dry_run then st.rsns
          else rsnsSetDisplay st.rsns member_id original_db_rsn new_name
        let writes2 :=
          if dry_run then st.writes
          else st.writes ++ [DbWrite.updateRsnDisplay member_id original_db_rsn new_name]
        { rsns := rsns2,
          map := dmodify new_norm (fun e => { e with original_rsn := new_name }) st.map,
          writes := writes2, report_lines := report_lines2, report_name_changes := report_ncs2 }
      else
        -- lines 314-332: genuine rename
        let rsns2 :=
          if dry_run then st.rsns
          else rsnsClearPrimary st.rsns member_id ++ [{ member_id := member_id, rsn := new_name, is_primary := true }]
        let writes2 :=
          if dry_run then st.writes
          else st.writes ++ [DbWrite.updateRsnClearPrimary member_id,
                             DbWrite.insertRsn member_id new_name]
        { rsns := rsns2,
          map := dinsert new_norm
            { member_id := member_id, is_primary := true, original_rsn := new_name }
            (dpop old_norm st.map),
          writes := writes2, report_lines := report_lines2, report_name_changes := report_ncs2 }

/-- The whole name-change pass.  The WOM fetch is modelled as succeeding
with the given `name_changes` list; the function threads the table, the
map, the report lines and its own write log. -/
def fetch_and_process_name_changes (dry_run : Bool) (rsns : List RsnRow) (map : RsnMap)
    (report_lines : List String) (name_changes : List (String × String)) : NCState :=
  name_changes.foldl (process_one_name_change dry_run)
    { rsns := rsns, map := map, writes := [], report_lines := report_lines,
      report_name_changes := [] }

/-! ### Derived fetches (`fetch_db_ranks_and_rsns`, `fetch_all_db_members`,
`fetch_wom_members`) -/

/-- lines 110-113: `ranks_map_normalized[normalize_string(name)] = id`. -/
def build_ranks_map_normalized (ranks : List (Nat × String)) : List (String × Nat) :=
  ranks.foldl (fun acc r => dinsert (normalize_string r.2) r.1 acc) []

/-- line 114: `ranks_map_by_id[id] = name`. -/
def build_ranks_map_by_id (ranks : List (Nat × String)) : List (Nat × String) :=
  ranks.foldl (fun acc r => dinsert r.1 r.2 acc) []

/-- lines 120-126: the normalized RSN map built from `member_rsns`. -/
def build_db_rsn_map (rsns : List RsnRow) : RsnMap :=
  rsns.foldl (fun acc row =>
    dinsert (normalize_string row.rsn)
      { member_id := row.member_id, is_primary := row.is_primary, original_rsn := row.rsn }
      acc) []

/-- One value of the map built by `fetch_all_db_members` (lines 156-164). -/
structure AllMemberInfo where
  current_rank_id : Option Nat
  status : String
deriving Repr, DecidableEq

def build_all_db_members (members : List MemberRow) : List (Nat × AllMemberInfo) :=
  members.foldl (fun acc m =>
    dinsert m.id { current_rank_id := m.current_rank_id, status := m.status } acc) []

/-- A membership entry of the WOM group payload (lines 89-99).  A
membership whose `player` is null is modelled as `none` and skipped. -/
structure WomPlayer where
  username : String
  id : Nat
  role : String
  exp : Option Int
deriving Repr, DecidableEq

/-- The per-player record kept in the `wom_members` dict (lines 93-99). -/
structure WomMember where
  rsn : String
  wom_id : Nat
  rank : String
  stale_exp : Option Int
  latest_snapshot : Option SnapData
deriving Repr, DecidableEq

def fetch_wom_members (memberships : List (Option WomPlayer)) : List (String × WomMember) :=
  memberships.foldl (fun acc mp =>
    match mp with
    | none => acc
    | some p => dinsert (normalize_string p.username)
        { rsn := p.username, wom_id := p.id, rank := p.role, stale_exp := p.exp,
          latest_snapshot := none } acc) []

/-! ### 3. ENRICH WOM DATA (`fetch_player_snapshots`, lines 170-228)

This function performs no store writes.  The WOM per-player endpoint is
the oracle `net`; `net name = none` covers both a missing
`latestSnapshot` and a failed fetch.  Rate limiting (pure sleeping) is
not represented. -/

def enrich_one (dry_run : Bool) (map : RsnMap) (active : List (Nat × ActiveInfo))
    (net : String → Option SnapData) (kv : String × WomMember) : String × WomMember :=
  let wm := kv.2
  let skip :=
    match dlookup kv.1 map with
    | some e =>
      -- `if member_id and member_id in db_member_data:` (0 is falsy)
      if e.member_id ≠ 0 then
        match dlookup e.member_id active with
        | some info =>
          match wm.stale_exp, info.latest_db_xp with
          | some a, some b => decide (a = b)
          | _, _ => false
        | none => false
      else false
    | none => false
  if skip then kv
  else if dry_run then kv
  else (kv.1, { wm with latest_snapshot := net wm.rsn })

/-! ### 3.5. BUILD SNAPSHOTS PAYLOAD (lines 387-404) -/

def build_snapshots_payload (wom : List (String × WomMember)) (map : RsnMap) :
    List SnapshotRow :=
  wom.foldl (fun acc kv =>
    match kv.2.latest_snapshot with
    | none => acc
    | some snap =>
      match dlookup kv.1 map with
      | some e =>
        if e.member_id ≠ 0 then
          acc ++ [{ member_id := e.member_id, total_xp := snap.experience,
                    total_level := snap.level, ehp := snap.ehp, ehb := snap.ehb }]
        else acc
      | none => acc) []

/-! ### 4. CALCULATE "DIFF" (lines 407-415) -/

def wom_member_ids_present (wom_keys : List String) (map : RsnMap) : List Nat :=
  wom_keys.foldl (fun s rsn =>
    match dlookup rsn map with
    | some e => if e.member_id ≠ 0 then sinsert e.member_id s else s
    | none => s) []

def new_normalized_rsns_of (wom_keys : List String) (map : RsnMap) : List String :=
  wom_keys.filter (fun k => dcontains k map = false)

def departed_member_ids (active_ids : List Nat) (present : List Nat) : List Nat :=
  active_ids.filter (fun mid => decide (mid ∈ present) = false)

/-! ### 5A. Process New Members (lines 428-464) -/

structure NewMemberPayload where
  rsn : String
  date_joined : String
  current_rank_id : Option Nat
  latest_db_xp : Int
deriving Repr, DecidableEq

structure ALoopState where
  ranks_map_normalized : List (String × Nat)
  store : Store
  writes : List DbWrite
  report_lines : List String
  new_members_payload : List NewMemberPayload
  report_newly_added : List String
deriving Repr, DecidableEq

def process_new_member (dry_run : Bool) (wom : List (String × WomMember)) (today : String)
    (st : ALoopState) (rsn_key : String) : ALoopState :=
  match dlookup rsn_key wom with
  | none => st
  | some member =>
    let rank_name := member.rank
    let normalized_rank_name := normalize_string rank_name
    let rank_id0 := dlookup normalized_rank_name st.ranks_map_normalized
    -- `if not rank_id:` — both a missing key and rank id 0 are falsy
    let missing := match rank_id0 with | none => true | some i => i = 0
    let step1 : ALoopState × Option Nat :=
      if missing then
        let lines := st.report_lines ++
          [s!"Note: Rank \x27{rank_name}\x27 (normalized: \x27{normalized_rank_name}\x27) not found."]
        if dry_run then ({ st with report_lines := lines }, rank_id0)
        else
          let new_id := st.store.next_rank_id
          ({ st with
              report_lines := lines ++
                [s!"  > Successfully created new \x27Other\x27 rank: {rank_name}"],
              store := { st.store with
                ranks := st.store.ranks ++ [(new_id, rank_name)],
                next_rank_id := new_id + 1 },
              writes := st.writes ++ [DbWrite.insertRank rank_name],
              ranks_map_normalized := dinsert normalized_rank_name new_id st.ranks_map_normalized },
            some new_id)
      else (st, rank_id0)
    let st1 := step1.1
    let latest_xp : Int :=
      match member.latest_snapshot with
      | some snap => snap.experience
      | none =>
        match member.stale_exp with
        | some e => if e = 0 then 0 else e   -- `elif member.get(..):` — 0 is falsy
        | none => 0
    { st1 with
      new_members_payload := st1.new_members_payload ++
        [{ rsn := member.rsn, date_joined := today, current_rank_id := step1.2,
           latest_db_xp := latest_xp }],
      report_newly_added := st1.report_newly_added ++ [s!"{member.rsn} (Rank: {rank_name})"] }

/-! ### 5B. Process Returning Members (lines 467-492) -/

structure ReturningPayload where
  member_id : Nat
  old_rank_id : Option Nat
  new_rank_id : Nat
deriving Repr, DecidableEq

def process_returning (wom : List (String × WomMember)) (map : RsnMap)
    (new_keys : List String) (all_members : List (Nat × AllMemberInfo))
    (ranks_map_normalized : List (String × Nat)) (ranks_map_by_id : List (Nat × String))
    (acc : List ReturningPayload × List String) (normalized_rsn : String) :
    List ReturningPayload × List String :=
  match dlookup normalized_rsn map with
  | none => acc
  | some entry =>
    if normalized_rsn ∈ new_keys then acc
    else if entry.is_primary = false then acc
    else
      match dlookup entry.member_id all_members with
      | none => acc
      | some am =>
        if am.status = "Inactive" then
          match dlookup normalized_rsn wom with
          | none => acc
          | some wm =>
            match dlookup (normalize_string wm.rank) ranks_map_normalized with
            | none => acc
            | some new_rank_id =>
              if new_rank_id ≠ 0 then   -- `if new_rank_id:`
                let old_rank_name :=
                  match am.current_rank_id with
                  | some i => (dlookup i ranks_map_by_id).getD "Unknown"
                  | none => "Unknown"
                (acc.1 ++ [{ member_id := entry.member_id,
                             old_rank_id := am.current_rank_id,
                             new_rank_id := new_rank_id }],
                 acc.2 ++ [s!"{wm.rsn}: {old_rank_name} -> {wm.rank}"])
              else acc
        else acc

/-! ### 5C. Check Rank Mismatches (lines 495-512)

Besides the formatted report line, the structured triple
(rsn, db rank name, wom rank name) is carried along: the source
re-derives exactly these three strings in step 7 by regex-matching the
line it just formatted, and the generated format always matches. -/

def rank_mismatch_step (wom : List (String × WomMember)) (map : RsnMap)
    (new_keys : List String) (active : List (Nat × ActiveInfo))
    (ranks_map_normalized : List (String × Nat)) (ranks_map_by_id : List (Nat × String))
    (acc : List String × List (String × String × String)) (normalized_rsn : String) :
    List String × List (String × String × String) :=
  match dlookup normalized_rsn map with
  | none => acc
  | some entry =>
    if normalized_rsn ∈ new_keys then acc
    else if entry.is_primary = false then acc
    else
      match dlookup entry.member_id active with
      | none => acc
      | some info =>
        match dlookup normalized_rsn wom with
        | none => acc
        | some wm =>
          match dlookup (normalize_string wm.rank) ranks_map_normalized with
          | none => acc
          | some wom_rank_id =>
            let differs : Bool :=
              match info.current_rank_id with
              | some d => decide (wom_rank_id ≠ d)
              | none => true          -- `int != None` is True
            if wom_rank_id ≠ 0 ∧ differs = true then   -- `if wom_rank_id and wom_rank_id != db_rank_id:`
              let db_rank_name :=
                match info.current_rank_id with
                | some i => (dlookup i ranks_map_by_id).getD "Unknown"
                | none => "Unknown"
              (acc.1 ++ [s!"{wm.rsn}: DB says \x27{db_rank_name}\x27, WOM says \x27{wm.rank}\x27"],
               acc.2 ++ [(wm.rsn, db_rank_name, wm.rank)])
            else acc

/-! ### 5D/E. Promotion checks (lines 514-526)

Line 518 evaluates `member['current_rank_id'] == ranks_map_by_id[10]`:
`ranks_map_by_id[10]` raises `KeyError` when no rank has id 10, and
otherwise compares an int (or `None`) with a str, which is `False` in
Python.  Were the comparison ever true, the right conjunct would raise
`NameError` (`timedelta` is never imported), and the loop body would
then raise `KeyError` on the missing `member['rsn']` key.  Line 525 is
the same shape for id 11 (plus a `member['total_level']` access). -/

inductive PyErr
  | keyError
  | nameError
deriving Repr, DecidableEq

inductive PyVal
  | vInt (n : Nat)
  | vStr (s : String)
  | vNone
deriving Repr, DecidableEq

def pyEq : PyVal → PyVal → Bool
  | .vInt a, .vInt b => a = b
  | .vStr a, .vStr b => a = b
  | .vNone, .vNone => true
  | _, _ => false

def pyOfOptNat : Option Nat → PyVal
  | some n => .vInt n
  | none => .vNone

def promo_condition (ranks_map_by_id : List (Nat × String)) (idx : Nat)
    (info : ActiveInfo) : Except PyErr Bool :=
  match dlookup idx ranks_map_by_id with
  | none => .error .keyError
  | some rank_name =>
    if pyEq (pyOfOptNat info.current_rank_id) (.vStr rank_name) then
      .error .nameError
    else .ok false

def promo_loop (ranks_map_by_id : List (Nat × String)) (idx : Nat)
    (active : List (Nat × ActiveInfo)) : Except PyErr (List String) :=
  active.foldlM (fun acc kv =>
    match promo_condition ranks_map_by_id idx kv.2 with
    | .error e => .error e
    | .ok b => if b then .error .keyError else .ok acc) []

def promo_checks (ranks_map_by_id : List (Nat × String))
    (active : List (Nat × ActiveInfo)) : Except PyErr (List String × List String) :=
  match promo_loop ranks_map_by_id 10 active with
  | .error e => .error e
  | .ok em =>
    match promo_loop ranks_map_by_id 11 active with
    | .error e => .error e
    | .ok ru => .ok (em, ru)

/-! ### 6. CIRCUIT BREAKER CHECK (lines 528-550) -/

/-- The gate decision of lines 535-550: taken as a function of the
mismatch count and the force flag alone. -/
def circuit_breaker_halts (mismatch_count : Nat) (force_run : Bool) : Bool :=
  if force_run then false
  else decide (mismatch_count > MISMATCH_THRESHOLD)

/-! ### Supabase update statements on `members` -/

def membersSetRank (ms : List MemberRow) (mid : Nat) (rid : Nat) : List MemberRow :=
  ms.map (fun m => if m.id = mid then { m with current_rank_id := some rid } else m)

def membersReactivate (ms : List MemberRow) (mid : Nat) (rid : Nat) : List MemberRow :=
  ms.map (fun m =>
    if m.id = mid then { m with status := "Active", current_rank_id := some rid } else m)

def membersDeactivate (ms : List MemberRow) (ids : List Nat) : List MemberRow :=
  ms.map (fun m => if m.id ∈ ids then { m with status := "Inactive" } else m)

/-! ### 7. FORCE RANK UPDATES (lines 553-592) -/

structure ForcedState where
  store : Store
  writes : List DbWrite
  report_lines : List String
  report_auto_rank_updates : List String
  rank_history_payload : List RankHistRow
deriving Repr, DecidableEq

def forced_update_step (dry_run : Bool) (map : RsnMap) (active : List (Nat × ActiveInfo))
    (ranks_map_normalized : List (String × Nat)) (st : ForcedState)
    (t : String × String × String) : ForcedState :=
  let rsn := t.1
  let db_rank := t.2.1
  let wom_rank := t.2.2
  match dlookup (normalize_string rsn) map with
  | none =>
    { st with report_lines := st.report_lines ++
        [s!"  - ERROR: Failed to auto-update rank for {rsn}: KeyError"] }
  | some entry =>
    match dlookup entry.member_id active with
    | none =>
      { st with report_lines := st.report_lines ++
          [s!"  - ERROR: Failed to auto-update rank for {rsn}: KeyError"] }
    | some info =>
      let new_rank_id0 := dlookup (normalize_string wom_rank) ranks_map_normalized
      let bad := match new_rank_id0 with | none => true | some i => i = 0
      if bad then
        { st with report_lines := st.report_lines ++
            [s!"  - ERROR: Cannot update {rsn}. Rank \x27{wom_rank}\x27 is unknown."] }
      else
        let new_rank_id := new_rank_id0.getD 0
        let st1 :=
          if dry_run then st
          else
            { st with
              store := { st.store with
                members := membersSetRank st.store.members entry.member_id new_rank_id },
              writes := st.writes ++ [DbWrite.updateMemberRank entry.member_id new_rank_id],
              rank_history_payload := st.rank_history_payload ++
                [{ member_id := entry.member_id, new_rank_id := some new_rank_id,
                   previous_rank_id := info.current_rank_id }] }
        { st1 with report_auto_rank_updates :=
            st1.report_auto_rank_updates ++ [s!"{rsn}: {db_rank} -> {wom_rank}"] }

def forced_updates_block (dry_run : Bool) (map : RsnMap) (active : List (Nat × ActiveInfo))
    (ranks_map_normalized : List (String × Nat)) (store : Store) (writes : List DbWrite)
    (report_lines : List String) (triples : List (String × String × String)) : ForcedState :=
  let st0 : ForcedState :=
    { store := store, writes := writes,
      report_lines := report_lines ++ ["\n--- EXECUTING FORCED RANK UPDATES ---"],
      report_auto_rank_updates := [], rank_history_payload := [] }
  let st := triples.foldl (forced_update_step dry_run map active ranks_map_normalized) st0
  if dry_run = false ∧ st.rank_history_payload ≠ [] then
    { st with
      store := { st.store with
        rank_history := st.store.rank_history ++ st.rank_history_payload },
      writes := st.writes ++ [DbWrite.insertRankHistory st.rank_history_payload.length] }
  else st

/-! ### 8. EXECUTE DB WRITES (lines 594-676) -/

def execute_db_writes (store : Store) (writes : List DbWrite) (report_lines : List String)
    (new_members_payload : List NewMemberPayload)
    (returning_members_payload : List ReturningPayload)
    (departed : List Nat) (snapshots_payload : List SnapshotRow)
    (report_newly_added : List String) (report_auto_rank_updates : List String)
    (dry_run : Bool) : Store × List DbWrite × List String :=
  if dry_run then
    let a := report_newly_added.length
    let b := returning_members_payload.length
    let d := snapshots_payload.length
    let e := report_auto_rank_updates.length
    (store, writes, report_lines ++
      ["\n--- (DRY RUN) SKIPPING ALL DATABASE WRITES ---",
       s!"Would add {a} new members.",
       s!"Would reactivate {b} returning members.",
       "Would deactivate 0 members.",    -- `report_deactivated` is never populated
       s!"Would insert {d} stat snapshots."] ++
      (if report_auto_rank_updates ≠ [] then
        [s!"Would force-update {e} mismatched ranks."] else []))
  else
    let lines0 := report_lines ++ ["\n--- EXECUTING LIVE DATABASE WRITES ---"]
    let s1 : Store × List DbWrite × List String :=
      if new_members_payload ≠ [] then
        let n := new_members_payload.length
        let base := store.next_member_id
        let newRows := new_members_payload.enum.map (fun ip =>
          ({ id := base + ip.1, current_rank_id := ip.2.current_rank_id,
             status := "Active", date_joined := ip.2.date_joined } : MemberRow))
        let newRsns := new_members_payload.enum.map (fun ip =>
          ({ member_id := base + ip.1, rsn := ip.2.rsn, is_primary := true } : RsnRow))
        let newHist := new_members_payload.enum.map (fun ip =>
          ({ member_id := base + ip.1, new_rank_id := ip.2.current_rank_id,
             previous_rank_id := none } : RankHistRow))
        ({ store with
            members := store.members ++ newRows,
            member_rsns := store.member_rsns ++ newRsns,
            rank_history := store.rank_history ++ newHist,
            next_member_id := base + n },
         writes ++ [DbWrite.insertMembers n, DbWrite.insertRsnBatch n,
                    DbWrite.insertRankHistory n],
         lines0 ++ [s!"Adding {n} new members...", "New member processing complete."])
      else (store, writes, lines0)
    let s2 : Store × List DbWrite × List String :=
      if returning_members_payload ≠ [] then
        let k := returning_members_payload.length
        let ms2 := returning_members_payload.foldl
          (fun ms rp => membersReactivate ms rp.member_id rp.new_rank_id) s1.1.members
        let histRows := returning_members_payload.map (fun rp =>
          ({ member_id := rp.member_id, new_rank_id := some rp.new_rank_id,
             previous_rank_id := rp.old_rank_id } : RankHistRow))
        let wr := returning_members_payload.map (fun rp =>
          DbWrite.updateMemberReactivate rp.member_id rp.new_rank_id)
        ({ s1.1 with members := ms2, rank_history := s1.1.rank_history ++ histRows },
         s1.2.1 ++ wr ++ [DbWrite.insertRankHistory histRows.length],
         s1.2.2 ++ [s!"Reactivating {k} returning members...",
                    "Returning member processing complete."])
      else s1
    let s3 : Store × List DbWrite × List String :=
      if departed ≠ [] then
        ({ s2.1 with members := membersDeactivate s2.1.members departed },
         s2.2.1 ++ [DbWrite.updateMembersInactive departed],
         -- line 651 interpolates `len(report_deactivated)`, which is always 0
         s2.2.2 ++ ["Deactivating 0 departed members...", "Deactivation complete."])
      else s2
    if snapshots_payload ≠ [] then
      let n := snapshots_payload.length
      ({ s3.1 with wom_snapshots := s3.1.wom_snapshots ++ snapshots_payload },
       s3.2.1 ++ [DbWrite.insertWomSnapshots n],
       s3.2.2 ++ [s!"Inserting {n} stat snapshots...", "Snapshot insertion complete."])
    else (s3.1, s3.2.1, s3.2.2 ++ ["No new snapshots to insert."])

/-! ### Final report section (lines 679-692) -/

def promo_report (pe pr : List String) : List String :=
  ["\n--- Staff Action Required: Pending Promotions ---",
   "Promote in-game, then run /rankup <rsn> <rank>"] ++
  (if pe ≠ [] then
    ["\n  Sapphire -> Emerald (>= 28 days):"] ++ pe.map (fun r => s!"    - {r}")
   else []) ++
  (if pr ≠ [] then
    ["\n  Emerald -> Ruby (>= 56 days & 1250+ total):"] ++ pr.map (fun r => s!"    - {r}")
   else []) ++
  (if pe = [] ∧ pr = [] then ["  No pending auto-promotions found."] else [])

def critical_error_line : String :=
  "CRITICAL ERROR: Halting sync due to data fetching error. Check console logs."

def halt_banner : String := "\n\n--- !!! SYNC HALTED: CIRCUIT BREAKER TRIGGERED !!! ---"

def no_changes_line : String := "\n--- NO CHANGES HAVE BEEN MADE TO THE DATABASE ---"

/-- Everything after the D/E promotion loops: safety checks, the circuit
breaker, forced updates, the write executor, and the closing report
sections.  This part of `run_sync` is pure: it can no longer raise. -/
def run_sync_after_gate (dry_run force_run : Bool) (store : Store) (writes : List DbWrite)
    (report_lines : List String) (map : RsnMap) (active : List (Nat × ActiveInfo))
    (ranks_map_normalized : List (String × Nat))
    (report_rank_mismatches : List String)
    (mismatch_triples : List (String × String × String))
    (new_members_payload : List NewMemberPayload)
    (returning_members_payload : List ReturningPayload)
    (departed : List Nat) (snapshots_payload : List SnapshotRow)
    (report_newly_added : List String) (pe pr : List String) (run_mode : String) :
    List String × List DbWrite × Store :=
  let fs : ForcedState :=
    if force_run ∧ report_rank_mismatches ≠ [] then
      forced_updates_block dry_run map active ranks_map_normalized store writes
        report_lines mismatch_triples
    else
      { store := store, writes := writes, report_lines := report_lines,
        report_auto_rank_updates := [], rank_history_payload := [] }
  let ex := execute_db_writes fs.store fs.writes fs.report_lines new_members_payload
    returning_members_payload departed snapshots_payload report_newly_added
    fs.report_auto_rank_updates dry_run
  (ex.2.2 ++ promo_report pe pr ++ [s!"\n--- Sync Complete ({run_mode}) ---"],
   ex.2.1, ex.1)

def run_sync_tail (dry_run force_run : Bool) (store : Store) (writes : List DbWrite)
    (report_lines : List String) (map : RsnMap) (active : List (Nat × ActiveInfo))
    (ranks_map_normalized : List (String × Nat))
    (report_rank_mismatches : List String)
    (mismatch_triples : List (String × String × String))
    (new_members_payload : List NewMemberPayload)
    (returning_members_payload : List ReturningPayload)
    (departed : List Nat) (snapshots_payload : List SnapshotRow)
    (report_newly_added : List String) (pe pr : List String) (run_mode : String) :
    List String × List DbWrite × Store :=
  let mc := report_rank_mismatches.length
  let lines1 := report_lines ++
    ["\n--- Running Safety Checks ---", s!"Found {mc} rank mismatches."] ++
    report_rank_mismatches.map (fun r => s!"  - {r}")
  if force_run then
    run_sync_after_gate dry_run force_run store writes
      (lines1 ++ [s!"Found {mc} mismatches. Bypassing Safety Checks as force_run=True was specified."])
      map active ranks_map_normalized report_rank_mismatches mismatch_triples
      new_members_payload returning_members_payload departed snapshots_payload
      report_newly_added pe pr run_mode
  else if circuit_breaker_halts mc false then
    (lines1 ++
      [halt_banner,
       s!"Found {mc} rank mismatches, which is over the threshold of {MISMATCH_THRESHOLD}.",
       "\nACTION: Please run an in-game WOM sync, wait 5 minutes, and try again.",
       "If this is intentional, run /sync-clan with force_run=True.\n",
       "--- Mismatch Report ---"] ++
      report_rank_mismatches.map (fun r => s!"  - {r}") ++
      [no_changes_line],
     writes, store)
  else
    run_sync_after_gate dry_run force_run store writes
      (lines1 ++ [s!"Found {mc} mismatches. (Under threshold of {MISMATCH_THRESHOLD}). Proceeding with sync."])
      map active ranks_map_normalized report_rank_mismatches mismatch_triples
      new_members_payload returning_members_payload departed snapshots_payload
      report_newly_added pe pr run_mode

/-- Outcome of a run: the value returned to the caller (or the Python
exception that escaped), the write log, and the final store. -/
def exceptDecEq {ε α : Type} [DecidableEq ε] [DecidableEq α] :
    (a b : Except ε α) → Decidable (a = b)
  | .ok a, .ok b => if h : a = b then .isTrue (by rw [h]) else .isFalse (by simp [h])
  | .ok _, .error _ => .isFalse (by simp)
  | .error _, .ok _ => .isFalse (by simp)
  | .error e, .error f => if h : e = f then .isTrue (by rw [h]) else .isFalse (by simp [h])

instance {ε α : Type} [DecidableEq ε] [DecidableEq α] : DecidableEq (Except ε α) :=
  exceptDecEq

structure SyncOutcome where
  result : Except PyErr (List String)
  writes : List DbWrite
  store : Store
deriving Repr, DecidableEq

/-- The body of `run_sync` once all five fetches succeeded with truthy
(non-empty) results. -/
def run_sync_main (store : Store) (active : List (Nat × ActiveInfo))
    (wom_members0 : List (String × WomMember)) (name_changes : List (String × String))
    (net : String → Option SnapData) (today : String) (dry_run force_run : Bool)
    (report0 : List String) (ranks_map_normalized0 : List (String × Nat))
    (ranks_map_by_id : List (Nat × String)) (db_rsn_map : RsnMap)
    (all_db_members : List (Nat × AllMemberInfo)) (run_mode : String) : SyncOutcome :=
  -- 1.5: group snapshot insert (lines 364-374); group data is truthy here
  let store1 := if dry_run then store
    else { store with group_snapshots := store.group_snapshots + 1 }
  let writes1 : List DbWrite := if dry_run then [] else [DbWrite.insertGroupSnapshot]
  -- 2: name changes (lines 377-379)
  let nc := fetch_and_process_name_changes dry_run store1.member_rsns db_rsn_map
    report0 name_changes
  let store2 := { store1 with member_rsns := nc.rsns }
  let writes2 := writes1 ++ nc.writes
  -- 3: enrichment (line 382)
  let wom_members := wom_members0.map (enrich_one dry_run nc.map active net)
  let wom_keys := wom_members.map (fun kv => kv.1)
  -- 3.5: snapshots payload
  let snapshots_payload := build_snapshots_payload wom_members nc.map
  -- 4: diff
  let present := wom_member_ids_present wom_keys nc.map
  let active_ids := active.map (fun kv => kv.1)
  let new_keys := new_normalized_rsns_of wom_keys nc.map
  let departed := departed_member_ids active_ids present
  -- 5A: new members
  let aSt := new_keys.foldl (process_new_member dry_run wom_members today)
    { ranks_map_normalized := ranks_map_normalized0, store := store2, writes := writes2,
      report_lines := nc.report_lines, new_members_payload := [],
      report_newly_added := [] }
  -- 5B: returning members
  let retAcc := wom_keys.foldl
    (process_returning wom_members nc.map new_keys all_db_members
      aSt.ranks_map_normalized ranks_map_by_id) ([], [])
  -- 5C: rank mismatches
  let mmAcc := wom_keys.foldl
    (rank_mismatch_step wom_members nc.map new_keys active
      aSt.ranks_map_normalized ranks_map_by_id) ([], [])
  -- 5D/E: promotion checks; an escaping exception aborts the run here
  match promo_checks ranks_map_by_id active with
  | .error e => { result := .error e, writes := aSt.writes, store := aSt.store }
  | .ok pepr =>
    let tail := run_sync_tail dry_run force_run aSt.store aSt.writes aSt.report_lines
      nc.map active aSt.ranks_map_normalized mmAcc.1 mmAcc.2 aSt.new_members_payload
      retAcc.1 departed snapshots_payload aSt.report_newly_added pepr.1 pepr.2 run_mode
    { result := .ok tail.1, writes := tail.2.1, store := tail.2.2 }

/-- 5. SYNC LOGIC: `run_sync` (lines 345-694).  Inputs: the store, the
active-member RPC result, the WOM group fetch (`none` = fetch failure),
the name-change feed, the per-player snapshot oracle, and today's
timestamp string.  The result report is the list of lines that the
source joins with a newline before returning. -/
def run_sync (store : Store) (active : List (Nat × ActiveInfo))
    (womFetch : Option (List (Option WomPlayer))) (name_changes : List (String × String))
    (net : String → Option SnapData) (today : String) (dry_run force_run : Bool) :
    SyncOutcome :=
  let run_mode := if dry_run then "DRY RUN" else "LIVE RUN"
  let report0 := [s!"--- Starting Roster Reconciliation ({run_mode}) ---"] ++
    (if force_run then
      ["--- WARNING: Force run enabled. Bypassing rank mismatch safety check. ---"]
     else [])
  let ranks_map_normalized := build_ranks_map_normalized store.ranks
  let ranks_map_by_id := build_ranks_map_by_id store.ranks
  let db_rsn_map := build_db_rsn_map store.member_rsns
  let all_db_members := build_all_db_members store.members
  match womFetch with
  | none =>
    { result := .ok (report0 ++ [critical_error_line]), writes := [], store := store }
  | some memberships =>
    let wom_members := fetch_wom_members memberships
    -- line 359: `if not all([...])` — an empty dict is falsy
    if wom_members = [] ∨ ranks_map_normalized = [] ∨ active = [] ∨
        db_rsn_map = [] ∨ all_db_members = [] then
      { result := .ok (report0 ++ [critical_error_line]), writes := [], store := store }
    else
      run_sync_main store active wom_members name_changes net today dry_run force_run
        report0 ranks_map_normalized ranks_map_by_id db_rsn_map all_db_members run_mode

/-! ### Report lookup helper -/

/-- Whether a run returned normally with the given line in its report. -/
def report_has (o : SyncOutcome) (line : String) : Bool :=
  match o.result with
  | .ok rep => decide (line ∈ rep)
  | .error _ => false

/-! ### Concrete run configurations used by the claim theorems -/

def exRanks : List (Nat × String) :=
  [(1, "Alpha"), (2, "Beta"), (10, "Sapphire"), (11, "Emerald")]

def letters15 : List String :=
  ["a", "b", "c", "d", "e", "f", "g", "h", "i", "j", "k", "l", "m", "n", "o"]

def letters16 : List String := letters15 ++ ["p"]

def letters17 : List String := letters16 ++ ["q"]

/-- A store with one Active member per name (rank 1), each name its
member's sole, primary alias. -/
def exStoreOf (names : List String) : Store :=
  { ranks := exRanks,
    member_rsns := names.enum.map (fun ip =>
      { member_id := ip.1 + 1, rsn := ip.2, is_primary := true }),
    members := names.enum.map (fun ip =>
      { id := ip.1 + 1, current_rank_id := some 1, status := "Active", date_joined := "D" }),
    group_snapshots := 0, rank_history := [], wom_snapshots := [],
    next_rank_id := 100, next_member_id := 100 }

def exActiveOf (names : List String) : List (Nat × ActiveInfo) :=
  names.enum.map (fun ip =>
    (ip.1 + 1, { date_joined := "D", current_rank_id := some 1, latest_db_xp := some 5 }))

/-- A WOM roster carrying the given names at rank label Beta (rank id 2),
with a cached exp equal to the stored one (so snapshot fetches are
skipped). -/
def exRosterOf (names : List String) : List (Option WomPlayer) :=
  names.enum.map (fun ip =>
    some { username := ip.2, id := 1000 + ip.1, role := "Beta", exp := some 5 })

def noNet : String → Option SnapData := fun _ => none

/-- C4 scenario: member 1 is Active with primary alias Main and
non-primary alias Alt. -/
def c4store : Store :=
  { ranks := exRanks,
    member_rsns := [{ member_id := 1, rsn := "Main", is_primary := true },
                    { member_id := 1, rsn := "Alt", is_primary := false }],
    members := [{ id := 1, current_rank_id := some 1, status := "Active", date_joined := "D" }],
    group_snapshots := 0, rank_history := [], wom_snapshots := [],
    next_rank_id := 100, next_member_id := 100 }

def c4active : List (Nat × ActiveInfo) :=
  [(1, { date_joined := "D", current_rank_id := some 1, latest_db_xp := some 5 })]

/-- The external roster carries only the non-primary alias Alt. -/
def c4roster : List (Option WomPlayer) :=
  [some { username := "Alt", id := 500, role := "Alpha", exp := some 5 }]

/-- C3 scenario: a well-formed store whose ranks table has no row with
id 10 (and none with id 11). -/
def c3store : Store :=
  { ranks := [(1, "Alpha")],
    member_rsns := [{ member_id := 1, rsn := "a", is_primary := true }],
    members := [{ id := 1, current_rank_id := some 1, status := "Active", date_joined := "D" }],
    group_snapshots := 0, rank_history := [], wom_snapshots := [],
    next_rank_id := 100, next_member_id := 100 }

def c3roster : List (Option WomPlayer) :=
  [some { username := "a", id := 7, role := "Alpha", exp := some 5 }]

/-! ### Proofs: the name normalizer is idempotent (C9 support) -/

theorem char_toNat_ofNat_valid (n : Nat) (h : n.isValidChar) :
    (Char.ofNat n).toNat = n := by
  rw [Char.ofNat, dif_pos h]
  simp [Char.ofNatAux, Char.toNat, UInt32.toNat]

theorem char_toLower_idem (c : Char) : c.toLower.toLower = c.toLower := by
  unfold Char.toLower
  by_cases h : c.toNat ≥ 65 ∧ c.toNat ≤ 90
  · rw [if_pos h]
    have hv : (c.toNat + 32).isValidChar := by
      left
      omega
    have ht : (Char.ofNat (c.toNat + 32)).toNat = c.toNat + 32 :=
      char_toNat_ofNat_valid _ hv
    rw [if_neg]
    rw [ht]
    omega
  · rw [if_neg h, if_neg h]

theorem map_toLower_fixed (l : List Char) (h : ∀ x ∈ l, Char.toLower x = x) :
    l.map Char.toLower = l := by
  induction l with
  | nil => rfl
  | cons a t ih =>
      simp only [List.map_cons]
      rw [h a (by simp), ih (fun x hx => h x (by simp [hx]))]

theorem normalize_string_eq_strip (s : String) :
    normalize_string s = if s = "" then "" else String.mk (stripChars (s.data.map Char.toLower)) := by
  rfl

theorem stripChars_lowered (l : List Char) :
    (stripChars (l.map Char.toLower)).map Char.toLower = stripChars (l.map Char.toLower) := by
  apply map_toLower_fixed
  intro x hx
  unfold stripChars at hx
  simp only [List.mem_filter] at hx
  obtain ⟨y, _, rfl⟩ := List.mem_map.mp hx.1.1.1.1
  exact char_toLower_idem y

theorem stripChars_sub {l : List Char} {x : Char} (hx : x ∈ stripChars l) :
    x ≠ ' ' ∧ x ≠ '_' ∧ x ≠ '-' ∧ x ≠ '.' := by
  unfold stripChars at hx
  simp only [List.mem_filter, decide_eq_true_eq, ne_eq, Bool.not_eq_true, decide_not,
    Bool.not_eq_false] at hx
  refine ⟨?a, ?b, ?c, ?d⟩ <;> simp_all

theorem stripChars_idem (l : List Char) : stripChars (stripChars l) = stripChars l := by
  have h1 : (stripChars l).filter (fun c => c ≠ ' ') = stripChars l :=
    List.filter_eq_self.mpr (fun a ha => by simpa using (stripChars_sub ha).1)
  have h2 : (stripChars l).filter (fun c => c ≠ '_') = stripChars l :=
    List.filter_eq_self.mpr (fun a ha => by simpa using (stripChars_sub ha).2.1)
  have h3 : (stripChars l).filter (fun c => c ≠ '-') = stripChars l :=
    List.filter_eq_self.mpr (fun a ha => by simpa using (stripChars_sub ha).2.2.1)
  have h4 : (stripChars l).filter (fun c => c ≠ '.') = stripChars l :=
    List.filter_eq_self.mpr (fun a ha => by simpa using (stripChars_sub ha).2.2.2)
  show ((((stripChars l).filter (fun c => c ≠ ' ')).filter (fun c => c ≠ '_')).filter
      (fun c => c ≠ '-')).filter (fun c => c ≠ '.') = stripChars l
  rw [h1, h2, h3, h4]

/-- C9: normalizing is idempotent (proved below as `C9_normalize_idempotent`). -/
theorem normalize_string_idem (s : String) :
    normalize_string (normalize_string s) = normalize_string s := by
  by_cases hs : s = ""
  · rw [hs]
    rfl
  · rw [normalize_string_eq_strip s, if_neg hs]
    by_cases h0 : String.mk (stripChars (s.data.map Char.toLower)) = ""
    · rw [normalize_string_eq_strip, if_pos h0, h0]
    · rw [normalize_string_eq_strip, if_neg h0]
      have hdata : (String.mk (stripChars (s.data.map Char.toLower))).data
          = stripChars (s.data.map Char.toLower) := rfl
      rw [hdata, stripChars_lowered, stripChars_idem]

/-! ### Dry runs touch nothing (C2 support) -/

theorem process_one_name_change_dry (st : NCState) (c : String × String) :
    (process_one_name_change true st c).rsns = st.rsns ∧
    (process_one_name_change true st c).writes = st.writes := by
  simp only [process_one_name_change]
  cases h1 : dlookup (normalize_string c.1) st.map with
  | none => exact ⟨rfl, rfl⟩
  | some old_entry =>
    cases h2 : dlookup (normalize_string c.2) st.map with
    | some existing =>
      by_cases h3 : existing.member_id = old_entry.member_id
      · by_cases h4 : existing.is_primary = false
        · simp [h3, h4]
        · simp [h3, h4]
      · by_cases h5 : normalize_string c.1 = normalize_string c.2
        · simp [h3, h5]
        · simp [h3, h5]
    | none =>
      by_cases h5 : normalize_string c.1 = normalize_string c.2
      · simp [h5]
      · simp [h5]

theorem nc_foldl_dry (ncs : List (String × String)) (st : NCState) :
    (ncs.foldl (process_one_name_change true) st).rsns = st.rsns ∧
    (ncs.foldl (process_one_name_change true) st).writes = st.writes := by
  induction ncs generalizing st with
  | nil => exact ⟨rfl, rfl⟩
  | cons c rest ih =>
    simp only [List.foldl_cons]
    obtain ⟨h1, h2⟩ := ih (process_one_name_change true st c)
    obtain ⟨g1, g2⟩ := process_one_name_change_dry st c
    exact ⟨h1.trans g1, h2.trans g2⟩

theorem fetch_nc_dry (rsns : List RsnRow) (map : RsnMap) (rl : List String)
    (ncs : List (String × String)) :
    (fetch_and_process_name_changes true rsns map rl ncs).rsns = rsns ∧
    (fetch_and_process_name_changes true rsns map rl ncs).writes = [] :=
  nc_foldl_dry ncs _

theorem process_new_member_dry (wom : List (String × WomMember)) (today : String)
    (st : ALoopState) (k : String) :
    (process_new_member true wom today st k).store = st.store ∧
    (process_new_member true wom today st k).writes = st.writes := by
  simp only [process_new_member]
  cases h1 : dlookup k wom with
  | none => exact ⟨rfl, rfl⟩
  | some member =>
    cases h2 : dlookup (normalize_string member.rank) st.ranks_map_normalized with
    | none => simp [h2]
    | some i => by_cases h3 : i = 0 <;> simp [h2, h3]

theorem a_loop_dry (wom : List (String × WomMember)) (today : String)
    (keys : List String) (st : ALoopState) :
    (keys.foldl (process_new_member true wom today) st).store = st.store ∧
    (keys.foldl (process_new_member true wom today) st).writes = st.writes := by
  induction keys generalizing st with
  | nil => exact ⟨rfl, rfl⟩
  | cons k rest ih =>
    simp only [List.foldl_cons]
    obtain ⟨h1, h2⟩ := ih (process_new_member true wom today st k)
    obtain ⟨g1, g2⟩ := process_new_member_dry wom today st k
    exact ⟨h1.trans g1, h2.trans g2⟩

theorem forced_update_step_dry (map : RsnMap) (active : List (Nat × ActiveInfo))
    (rmn : List (String × Nat)) (st : ForcedState) (t : String × String × String) :
    (forced_update_step true map active rmn st t).store = st.store ∧
    (forced_update_step true map active rmn st t).writes = st.writes ∧
    (forced_update_step true map active rmn st t).rank_history_payload
      = st.rank_history_payload := by
  simp only [forced_update_step]
  cases h1 : dlookup (normalize_string t.1) map with
  | none => simp [h1]
  | some entry =>
    cases h2 : dlookup entry.member_id active with
    | none => simp [h1, h2]
    | some info =>
      cases h3 : dlookup (normalize_string t.2.2) rmn with
      | none => simp [h1, h2, h3]
      | some i => by_cases h4 : i = 0 <;> simp [h1, h2, h3, h4]

theorem forced_updates_block_dry (map : RsnMap) (active : List (Nat × ActiveInfo))
    (rmn : List (String × Nat)) (store : Store) (writes : List DbWrite)
    (rl : List String) (triples : List (String × String × String)) :
    (forced_updates_block true map active rmn store writes rl triples).store = store ∧
    (forced_updates_block true map active rmn store writes rl triples).writes = writes := by
  have hfold : ∀ (ts : List (String × String × String)) (st : ForcedState),
      (ts.foldl (forced_update_step true map active rmn) st).store = st.store ∧
      (ts.foldl (forced_update_step true map active rmn) st).writes = st.writes := by
    intro ts
    induction ts with
    | nil => exact fun st => ⟨rfl, rfl⟩
    | cons t rest ih =>
      intro st
      simp only [List.foldl_cons]
      obtain ⟨h1, h2⟩ := ih (forced_update_step true map active rmn st t)
      obtain ⟨g1, g2, _⟩ := forced_update_step_dry map active rmn st t
      exact ⟨h1.trans g1, h2.trans g2⟩
  simp only [forced_updates_block]
  rw [if_neg (by simp)]
  exact hfold triples _

theorem execute_db_writes_dry (store : Store) (writes : List DbWrite) (rl : List String)
    (nmp : List NewMemberPayload) (rmp : List ReturningPayload) (dep : List Nat)
    (sp : List SnapshotRow) (rna rau : List String) :
    (execute_db_writes store writes rl nmp rmp dep sp rna rau true).1 = store ∧
    (execute_db_writes store writes rl nmp rmp dep sp rna rau true).2.1 = writes := by
  unfold execute_db_writes
  simp

theorem run_sync_after_gate_dry (force : Bool) (store : Store) (writes : List DbWrite)
    (rl : List String) (map : RsnMap) (active : List (Nat × ActiveInfo))
    (rmn : List (String × Nat)) (rrm : List String)
    (mt : List (String × String × String)) (nmp : List NewMemberPayload)
    (rmp : List ReturningPayload) (dep : List Nat) (sp : List SnapshotRow)
    (rna : List String) (pe pr : List String) (rm : String) :
    (run_sync_after_gate true force store writes rl map active rmn rrm mt nmp rmp dep
        sp rna pe pr rm).2.1 = writes ∧
    (run_sync_after_gate true force store writes rl map active rmn rrm mt nmp rmp dep
        sp rna pe pr rm).2.2 = store := by
  unfold run_sync_after_gate
  split
  · next h =>
    obtain ⟨hs, hw⟩ := forced_updates_block_dry map active rmn store writes rl mt
    obtain ⟨es, ew⟩ := execute_db_writes_dry (forced_updates_block true map active rmn
      store writes rl mt).store (forced_updates_block true map active rmn store writes
      rl mt).writes (forced_updates_block true map active rmn store writes rl mt).report_lines
      nmp rmp dep sp rna (forced_updates_block true map active rmn store writes rl
      mt).report_auto_rank_updates
    exact ⟨ew.trans hw, es.trans hs⟩
  · obtain ⟨es, ew⟩ := execute_db_writes_dry store writes rl nmp rmp dep sp rna []
    exact ⟨ew, es⟩

theorem run_sync_tail_dry (force : Bool) (store : Store) (writes : List DbWrite)
    (rl : List String) (map : RsnMap) (active : List (Nat × ActiveInfo))
    (rmn : List (String × Nat)) (rrm : List String)
    (mt : List (String × String × String)) (nmp : List NewMemberPayload)
    (rmp : List ReturningPayload) (dep : List Nat) (sp : List SnapshotRow)
    (rna : List String) (pe pr : List String) (rm : String) :
    (run_sync_tail true force store writes rl map active rmn rrm mt nmp rmp dep
        sp rna pe pr rm).2.1 = writes ∧
    (run_sync_tail true force store writes rl map active rmn rrm mt nmp rmp dep
        sp rna pe pr rm).2.2 = store := by
  unfold run_sync_tail
  split
  · exact run_sync_after_gate_dry force store writes _ map active rmn rrm mt nmp rmp
      dep sp rna pe pr rm
  · dsimp only
    split
    · exact ⟨rfl, rfl⟩
    · exact run_sync_after_gate_dry force store writes _ map active rmn rrm mt nmp rmp
        dep sp rna pe pr rm

theorem a_loop_dry_store (wom : List (String × WomMember)) (today : String)
    (st : ALoopState) (keys : List String) :
    (List.foldl (process_new_member true wom today) st keys).store = st.store :=
  (a_loop_dry wom today keys st).1

theorem a_loop_dry_writes (wom : List (String × WomMember)) (today : String)
    (st : ALoopState) (keys : List String) :
    (List.foldl (process_new_member true wom today) st keys).writes = st.writes :=
  (a_loop_dry wom today keys st).2

theorem run_sync_tail_dry_writes (force : Bool) (store : Store) (writes : List DbWrite)
    (rl : List String) (map : RsnMap) (active : List (Nat × ActiveInfo))
    (rmn : List (String × Nat)) (rrm : List String)
    (mt : List (String × String × String)) (nmp : List NewMemberPayload)
    (rmp : List ReturningPayload) (dep : List Nat) (sp : List SnapshotRow)
    (rna : List String) (pe pr : List String) (rm : String) :
    (run_sync_tail true force store writes rl map active rmn rrm mt nmp rmp dep
        sp rna pe pr rm).2.1 = writes :=
  (run_sync_tail_dry force store writes rl map active rmn rrm mt nmp rmp dep sp rna
    pe pr rm).1

theorem run_sync_tail_dry_store (force : Bool) (store : Store) (writes : List DbWrite)
    (rl : List String) (map : RsnMap) (active : List (Nat × ActiveInfo))
    (rmn : List (String × Nat)) (rrm : List String)
    (mt : List (String × String × String)) (nmp : List NewMemberPayload)
    (rmp : List ReturningPayload) (dep : List Nat) (sp : List SnapshotRow)
    (rna : List String) (pe pr : List String) (rm : String) :
    (run_sync_tail true force store writes rl map active rmn rrm mt nmp rmp dep
        sp rna pe pr rm).2.2 = store :=
  (run_sync_tail_dry force store writes rl map active rmn rrm mt nmp rmp dep sp rna
    pe pr rm).2

theorem run_sync_main_dry (store : Store) (active : List (Nat × ActiveInfo))
    (wm : List (String × WomMember)) (ncs : List (String × String))
    (net : String → Option SnapData) (today : String) (force : Bool)
    (r0 : List String) (rmn : List (String × Nat)) (rbi : List (Nat × String))
    (map : RsnMap) (adm : List (Nat × AllMemberInfo)) (rm : String) :
    (run_sync_main store active wm ncs net today true force r0 rmn rbi map adm rm).writes
      = [] ∧
    (run_sync_main store active wm ncs net today true force r0 rmn rbi map adm rm).store
      = store := by
  obtain ⟨hncr, hncw⟩ := fetch_nc_dry store.member_rsns map r0 ncs
  have heta : ({ store with member_rsns := store.member_rsns } : Store) = store := rfl
  unfold run_sync_main
  simp only [if_true, ite_true, eq_self_iff_true, List.nil_append, hncw, hncr, heta,
    a_loop_dry_store, a_loop_dry_writes, run_sync_tail_dry_writes, run_sync_tail_dry_store]
  split <;> simp

/-! ### The promotion checks return normally when ranks 10 and 11 exist
(C3 support) -/

theorem promo_condition_ok (rbi : List (Nat × String)) (idx : Nat) (info : ActiveInfo)
    (v : String) (h : dlookup idx rbi = some v) :
    promo_condition rbi idx info = .ok false := by
  unfold promo_condition
  rw [h]
  cases info.current_rank_id <;> rfl

theorem promo_loop_ok (rbi : List (Nat × String)) (idx : Nat) (v : String)
    (h : dlookup idx rbi = some v) (active : List (Nat × ActiveInfo)) :
    promo_loop rbi idx active = .ok [] := by
  unfold promo_loop
  have haux : ∀ (l : List (Nat × ActiveInfo)) (acc : List String),
      l.foldlM (fun acc kv =>
        match promo_condition rbi idx kv.2 with
        | .error e => Except.error e
        | .ok b => if b then Except.error PyErr.keyError else Except.ok acc) acc
        = Except.ok acc := by
    intro l
    induction l with
    | nil => intro acc; rfl
    | cons kv rest ih =>
      intro acc
      rw [List.foldlM_cons, promo_condition_ok rbi idx kv.2 v h]
      exact ih acc
  exact haux active []

theorem promo_checks_ok (rbi : List (Nat × String)) (v10 v11 : String)
    (h10 : dlookup 10 rbi = some v10) (h11 : dlookup 11 rbi = some v11)
    (active : List (Nat × ActiveInfo)) :
    promo_checks rbi active = .ok ([], []) := by
  unfold promo_checks
  rw [promo_loop_ok rbi 10 v10 h10 active, promo_loop_ok rbi 11 v11 h11 active]

/-! ### Characterization of the departed set (C4 support) -/

theorem mem_sinsert (n m : Nat) (s : List Nat) : n ∈ sinsert m s ↔ n = m ∨ n ∈ s := by
  unfold sinsert
  split
  · next h =>
    constructor
    · exact fun hn => Or.inr hn
    · rintro (rfl | hn)
      · exact h
      · exact hn
  · simp [or_comm]

theorem mem_wom_present_aux (map : RsnMap) (keys : List String) (s : List Nat)
    (mid : Nat) :
    (mid ∈ keys.foldl (fun s rsn =>
        match dlookup rsn map with
        | some e => if e.member_id ≠ 0 then sinsert e.member_id s else s
        | none => s) s)
      ↔ mid ∈ s ∨ ∃ k ∈ keys, ∃ e, dlookup k map = some e ∧ e.member_id = mid ∧ mid ≠ 0 := by
  induction keys generalizing s with
  | nil => simp
  | cons k rest ih =>
    simp only [List.foldl_cons]
    rw [ih]
    cases hk : dlookup k map with
    | none =>
      simp only [List.mem_cons]
      constructor
      · rintro (hs | ⟨k2, hk2, e, he, hm, hz⟩)
        · exact Or.inl hs
        · exact Or.inr ⟨k2, Or.inr hk2, e, he, hm, hz⟩
      · rintro (hs | ⟨k2, (rfl | hk2), e, he, hm, hz⟩)
        · exact Or.inl hs
        · rw [hk] at he
          cases he
        · exact Or.inr ⟨k2, hk2, e, he, hm, hz⟩
    | some e =>
      dsimp only
      by_cases hz : e.member_id ≠ 0
      · rw [if_pos hz]
        simp only [List.mem_cons, mem_sinsert]
        constructor
        · rintro ((rfl | hs) | ⟨k2, hk2, e2, he2, hm2, hz2⟩)
          · exact Or.inr ⟨k, Or.inl rfl, e, hk, rfl, hz⟩
          · exact Or.inl hs
          · exact Or.inr ⟨k2, Or.inr hk2, e2, he2, hm2, hz2⟩
        · rintro (hs | ⟨k2, (rfl | hk2), e2, he2, hm2, hz2⟩)
          · exact Or.inl (Or.inr hs)
          · rw [hk] at he2
            cases he2
            exact Or.inl (Or.inl hm2.symm)
          · exact Or.inr ⟨k2, hk2, e2, he2, hm2, hz2⟩
      · rw [if_neg hz]
        push_neg at hz
        simp only [List.mem_cons]
        constructor
        · rintro (hs | ⟨k2, hk2, e2, he2, hm2, hz2⟩)
          · exact Or.inl hs
          · exact Or.inr ⟨k2, Or.inr hk2, e2, he2, hm2, hz2⟩
        · rintro (hs | ⟨k2, (rfl | hk2), e2, he2, hm2, hz2⟩)
          · exact Or.inl hs
          · rw [hk] at he2
            cases he2
            rw [hz] at hm2
            exact absurd hm2.symm hz2
          · exact Or.inr ⟨k2, hk2, e2, he2, hm2, hz2⟩

theorem mem_wom_member_ids_present (map : RsnMap) (keys : List String) (mid : Nat) :
    mid ∈ wom_member_ids_present keys map
      ↔ ∃ k ∈ keys, ∃ e, dlookup k map = some e ∧ e.member_id = mid ∧ mid ≠ 0 := by
  unfold wom_member_ids_present
  rw [mem_wom_present_aux]
  simp

/-! ### Claim theorems -/

/-- C9: for every string `x`, `normalize_string (normalize_string x) =
normalize_string x`, where `normalize_string` lower-cases and removes
spaces, underscores, hyphens and periods, and maps empty input to the
empty string. -/
theorem C9_normalize_idempotent (x : String) :
    normalize_string (normalize_string x) = normalize_string x :=
  normalize_string_idem x

/-- C6 (code bug): replaying the two rename events O→N then N→O within a
single run, starting from O as the member's sole primary alias, does NOT
leave two alias rows.  Because the resolver pops O from the live map
after the first rename (line 327), the second event misses the revert
branch and inserts a third row, duplicating O: the final table is
O (non-primary), N (non-primary), O (primary). -/
theorem C6_revert_in_one_run_duplicates_row :
    (fetch_and_process_name_changes false
        [{ member_id := 1, rsn := "O", is_primary := true }]
        [("o", { member_id := 1, is_primary := true, original_rsn := "O" })]
        [] [("O", "N"), ("N", "O")]).rsns
      = [{ member_id := 1, rsn := "O", is_primary := false },
         { member_id := 1, rsn := "N", is_primary := false },
         { member_id := 1, rsn := "O", is_primary := true }] ∧
    ((fetch_and_process_name_changes false
        [{ member_id := 1, rsn := "O", is_primary := true }]
        [("o", { member_id := 1, is_primary := true, original_rsn := "O" })]
        [] [("O", "N"), ("N", "O")]).rsns.filter (fun r => r.rsn = "O")).length = 2 := by
  decide

/-- C7 (code bug): a rename whose old and new names normalize identically
is never applied in place.  When the row is primary the event is skipped
as "already processed" (no update at all, the display string keeps its
old spelling); when the row is non-primary the event takes the revert
branch and flips the primary flag instead of updating the display
string. -/
theorem C7_display_rename_not_applied :
    (fetch_and_process_name_changes false
        [{ member_id := 1, rsn := "bob", is_primary := true }]
        [("bob", { member_id := 1, is_primary := true, original_rsn := "bob" })]
        [] [("bob", "BOB")]).rsns
      = [{ member_id := 1, rsn := "bob", is_primary := true }] ∧
    (fetch_and_process_name_changes false
        [{ member_id := 1, rsn := "bob", is_primary := true }]
        [("bob", { member_id := 1, is_primary := true, original_rsn := "bob" })]
        [] [("bob", "BOB")]).writes = [] ∧
    (fetch_and_process_name_changes false
        [{ member_id := 1, rsn := "Main", is_primary := true },
         { member_id := 1, rsn := "bob", is_primary := false }]
        [("main", { member_id := 1, is_primary := true, original_rsn := "Main" }),
         ("bob", { member_id := 1, is_primary := false, original_rsn := "bob" })]
        [] [("bob", "BOB")]).rsns
      = [{ member_id := 1, rsn := "Main", is_primary := true },
         { member_id := 1, rsn := "bob", is_primary := true }] := by
  decide

/-- C8 (code bug): the at-most-one-primary invariant is not preserved.
From a state with exactly one primary row (A) among A, B, C, replaying
the stale rename B→C enters the revert branch (line 266) with a
non-primary old row: the swap demotes B (a no-op) and promotes C,
leaving the member with the two primary rows A and C. -/
theorem C8_revert_breaks_single_primary :
    (([{ member_id := 1, rsn := "A", is_primary := true },
       { member_id := 1, rsn := "B", is_primary := false },
       { member_id := 1, rsn := "C", is_primary := false }] : List RsnRow).filter
        (fun r => decide (r.member_id = 1) && r.is_primary)).length = 1 ∧
    ((fetch_and_process_name_changes false
        [{ member_id := 1, rsn := "A", is_primary := true },
         { member_id := 1, rsn := "B", is_primary := false },
         { member_id := 1, rsn := "C", is_primary := false }]
        [("a", { member_id := 1, is_primary := true, original_rsn := "A" }),
         ("b", { member_id := 1, is_primary := false, original_rsn := "B" }),
         ("c", { member_id := 1, is_primary := false, original_rsn := "C" })]
        [] [("B", "C")]).rsns.filter
        (fun r => decide (r.member_id = 1) && r.is_primary)).length = 2 := by
  decide

/-- C1 (code bug): a live run (dry_run=false, force_run=false) that the
circuit breaker halts (16 mismatches > threshold 15) has already
inserted the group snapshot and applied a name change to `member_rsns`
before the gate, while its report ends with the NO CHANGES banner. -/
theorem C1_halted_live_run_wrote_before_gate :
    (run_sync (exStoreOf letters17) (exActiveOf letters17) (some (exRosterOf letters16))
        [("q", "zz")] noNet "T" false false).writes
      = [DbWrite.insertGroupSnapshot, DbWrite.updateRsnClearPrimary 17,
         DbWrite.insertRsn 17 "zz"] ∧
    report_has (run_sync (exStoreOf letters17) (exActiveOf letters17)
        (some (exRosterOf letters16)) [("q", "zz")] noNet "T" false false)
      halt_banner = true ∧
    report_has (run_sync (exStoreOf letters17) (exActiveOf letters17)
        (some (exRosterOf letters16)) [("q", "zz")] noNet "T" false false)
      no_changes_line = true ∧
    (run_sync (exStoreOf letters17) (exActiveOf letters17) (some (exRosterOf letters16))
        [("q", "zz")] noNet "T" false false).store.group_snapshots = 1 := by
  decide

/-- C5: with force false, a mismatch count equal to the threshold (15)
proceeds and threshold+1 halts; the gate decision is exactly
`!force && (count > threshold)`.  The two concrete runs exercise the
boundary through `run_sync` itself. -/
theorem C5_gate_threshold_boundary :
    (∀ mismatch_count force_run, circuit_breaker_halts mismatch_count force_run
        = (!force_run && decide (mismatch_count > MISMATCH_THRESHOLD))) ∧
    report_has (run_sync (exStoreOf letters15) (exActiveOf letters15)
        (some (exRosterOf letters15)) [] noNet "T" true false)
      "Found 15 mismatches. (Under threshold of 15). Proceeding with sync." = true ∧
    report_has (run_sync (exStoreOf letters15) (exActiveOf letters15)
        (some (exRosterOf letters15)) [] noNet "T" true false) halt_banner = false ∧
    report_has (run_sync (exStoreOf letters16) (exActiveOf letters16)
        (some (exRosterOf letters16)) [] noNet "T" true false) halt_banner = true := by
  refine ⟨fun mc force => ?_, by decide, by decide, by decide⟩
  cases force <;> simp [circuit_breaker_halts]

/-- C3 counterexample: a store whose (non-empty) ranks table has no row
with id 10 makes `run_sync` raise `KeyError` out of the promotion check
(line 518, `ranks_map_by_id[10]`), so the run does not return a report. -/
theorem C3_counterexample_keyerror_without_rank10 :
    (run_sync c3store c4active (some c3roster) [] noNet "T" true false).result
      = Except.error PyErr.keyError := by
  decide

/-- C2: with dry_run=true, `run_sync` performs no store mutation at all:
its write log is empty and every table of the store is exactly as
before, for every input state, roster, name-change feed, snapshot
oracle and force flag. -/
theorem C2_dry_run_never_mutates (store : Store) (active : List (Nat × ActiveInfo))
    (womFetch : Option (List (Option WomPlayer))) (ncs : List (String × String))
    (net : String → Option SnapData) (today : String) (force : Bool) :
    (run_sync store active womFetch ncs net today true force).writes = [] ∧
    (run_sync store active womFetch ncs net today true force).store = store := by
  unfold run_sync
  cases womFetch with
  | none => exact ⟨rfl, rfl⟩
  | some memberships =>
    dsimp only
    split
    · exact ⟨rfl, rfl⟩
    · exact run_sync_main_dry store active _ ncs net today force _ _ _ _ _ _

/-- C4 counterexample: member 1 is Active, its primary alias Main is
absent from the roster and only its non-primary alias Alt appears; the
member is NOT classified departed and a live run leaves it Active,
writing only the group snapshot. -/
theorem C4_counterexample_alt_alias_keeps_member :
    departed_member_ids [1]
        (wom_member_ids_present ["alt"] (build_db_rsn_map c4store.member_rsns)) = [] ∧
    (run_sync c4store c4active (some c4roster) [] noNet "T" false false).store.members
      = [{ id := 1, current_rank_id := some 1, status := "Active", date_joined := "D" }] ∧
    (run_sync c4store c4active (some c4roster) [] noNet "T" false false).writes
      = [DbWrite.insertGroupSnapshot] := by
  decide

/-- C4 (amended): an active member is classified Departed exactly when no
normalized name of the external roster resolves to that member in the
alias map — any alias, primary or not, that appears in the roster keeps
the member out of the departed set. -/
theorem C4_amended_departed_iff_no_alias_present (active_ids : List Nat)
    (wom_keys : List String) (map : RsnMap) (mid : Nat) (h : mid ≠ 0) :
    mid ∈ departed_member_ids active_ids (wom_member_ids_present wom_keys map)
      ↔ mid ∈ active_ids ∧
        ∀ k ∈ wom_keys, ∀ e, dlookup k map = some e → e.member_id ≠ mid := by
  unfold departed_member_ids
  rw [List.mem_filter]
  simp only [decide_eq_false_iff_not, decide_eq_true_eq]
  rw [mem_wom_member_ids_present]
  constructor
  · rintro ⟨ha, hnp⟩
    refine ⟨ha, fun k hk e he hm => hnp ⟨k, hk, e, he, hm, h⟩⟩
  · rintro ⟨ha, hall⟩
    refine ⟨ha, ?_⟩
    rintro ⟨k, hk, e, he, hm, _⟩
    exact hall k hk e he hm

/-- C4 amended witness: in the concrete two-alias store of the
counterexample, the characterization applies to member 1. -/
theorem C4_amended_witness :
    (1 : Nat) ≠ 0 ∧
    (1 ∈ departed_member_ids [1]
        (wom_member_ids_present ["alt"] (build_db_rsn_map c4store.member_rsns))
      ↔ 1 ∈ [1] ∧ ∀ k ∈ ["alt"], ∀ e,
          dlookup k (build_db_rsn_map c4store.member_rsns) = some e → e.member_id ≠ 1) :=
  ⟨by decide,
   C4_amended_departed_iff_no_alias_present [1] ["alt"]
     (build_db_rsn_map c4store.member_rsns) 1 (by decide)⟩

/-- C10: when the WOM fetch succeeds but the roster map is empty, or any
of the local ranks / aliases / active-member / member collections is
empty, `run_sync` reports CRITICAL ERROR, returns immediately, attempts
zero writes, and leaves the store untouched — an empty external roster
can never mass-deactivate the clan. -/
theorem C10_empty_data_is_critical_error (store : Store)
    (active : List (Nat × ActiveInfo)) (memberships : List (Option WomPlayer))
    (ncs : List (String × String)) (net : String → Option SnapData) (today : String)
    (dry force : Bool)
    (h : fetch_wom_members memberships = [] ∨ store.ranks = [] ∨ active = [] ∨
         store.member_rsns = [] ∨ store.members = []) :
    (∃ rep, (run_sync store active (some memberships) ncs net today dry force).result
        = Except.ok rep ∧ critical_error_line ∈ rep) ∧
    (run_sync store active (some memberships) ncs net today dry force).writes = [] ∧
    (run_sync store active (some memberships) ncs net today dry force).store = store := by
  have hcond : fetch_wom_members memberships = [] ∨
      build_ranks_map_normalized store.ranks = [] ∨ active = [] ∨
      build_db_rsn_map store.member_rsns = [] ∨
      build_all_db_members store.members = [] := by
    rcases h with h | h | h | h | h
    · exact Or.inl h
    · exact Or.inr (Or.inl (by rw [h]; rfl))
    · exact Or.inr (Or.inr (Or.inl h))
    · exact Or.inr (Or.inr (Or.inr (Or.inl (by rw [h]; rfl))))
    · exact Or.inr (Or.inr (Or.inr (Or.inr (by rw [h]; rfl))))
  unfold run_sync
  dsimp only
  rw [if_pos hcond]
  exact ⟨⟨_, rfl, by simp [critical_error_line]⟩, rfl, rfl⟩

/-- C10 witness: a successful fetch returning a group with zero members,
against a well-populated store. -/
theorem C10_witness :
    (∃ rep, (run_sync c4store c4active (some []) [] noNet "T" false false).result
        = Except.ok rep ∧ critical_error_line ∈ rep) ∧
    (run_sync c4store c4active (some []) [] noNet "T" false false).writes = [] ∧
    (run_sync c4store c4active (some []) [] noNet "T" false false).store = c4store :=
  C10_empty_data_is_critical_error c4store c4active [] [] noNet "T" false false
    (Or.inl rfl)

/-- C3 (amended): provided the ranks table yields entries for ids 10 and
11 (the two ids the promotion checks index unconditionally), `run_sync`
always returns a report normally — in particular the promotion passes
cannot fail, because the condition compares a rank id (int) against a
rank name (str), which is `False` in Python for every active member. -/
theorem C3_amended_returns_report (store : Store) (active : List (Nat × ActiveInfo))
    (womFetch : Option (List (Option WomPlayer))) (ncs : List (String × String))
    (net : String → Option SnapData) (today : String) (dry force : Bool)
    (v10 v11 : String)
    (h10 : dlookup 10 (build_ranks_map_by_id store.ranks) = some v10)
    (h11 : dlookup 11 (build_ranks_map_by_id store.ranks) = some v11) :
    ∃ rep, (run_sync store active womFetch ncs net today dry force).result
      = Except.ok rep := by
  unfold run_sync
  cases womFetch with
  | none => exact ⟨_, rfl⟩
  | some memberships =>
    dsimp only
    split
    · exact ⟨_, rfl⟩
    · unfold run_sync_main
      rw [promo_checks_ok (build_ranks_map_by_id store.ranks) v10 v11 h10 h11 active]
      exact ⟨_, rfl⟩

/-- C3 amended witness: a store whose ranks include ids 10 and 11
(Sapphire and Emerald) runs to a normal report. -/
theorem C3_amended_witness :
    dlookup 10 (build_ranks_map_by_id (exStoreOf letters15).ranks) = some "Sapphire" ∧
    dlookup 11 (build_ranks_map_by_id (exStoreOf letters15).ranks) = some "Emerald" ∧
    ∃ rep, (run_sync (exStoreOf letters15) (exActiveOf letters15)
        (some (exRosterOf letters15)) [] noNet "T" true false).result = Except.ok rep :=
  ⟨by decide, by decide,
   C3_amended_returns_report (exStoreOf letters15) (exActiveOf letters15)
     (some (exRosterOf letters15)) [] noNet "T" true false "Sapphire" "Emerald"
     (by decide) (by decide)⟩

end OnlyFes
